import Mathlib

/-!
Shallow embedding of the ai-headshot-generator web application.

The embedding covers:
* `src/src/components/ImageUploader.tsx` — `validateFile`;
* `src/src/utils/promptGeneration.ts` — `generateHeadshotPrompts`,
  `generateBatchPrompts`, `calculateQualityScore`, `getImageRecommendations`;
* the image-processing utility module — `isHeicFile`, `validateImageFile`,
  `convertHeicToPng`, `tryNativeHeicConversion`, `convertImageToPng`,
  `optimizeImageSize`, `getImageMetadata`, `analyzeImageContent`;
* the generator component — the batched generation loop of
  `generateHeadshots` and the request shape of `regenerateImage`.  The loop
  is modelled twice: `genLoop` realizes the skip-and-continue retry
  semantics the source's comments intend (and over-approximates the issued
  requests), while `genLoopReal`/`generateHeadshots` model the actual
  behavior, in which a failed individual retry aborts the run because the
  retry `catch` reads the out-of-scope `const actualIndex` and itself
  throws a `ReferenceError`.

Browser effects (image decoding, canvas, the heic2any library, the remote
AI API) are modelled as explicit environments of oracle functions; string
operations of JavaScript (`toLowerCase`, `includes`, `endsWith`) are
modelled over `List Char` (all patterns matched by the code are ASCII).
JavaScript numbers are modelled as `ℚ` where fractional arithmetic occurs
and as `ℕ` where the code only uses integral values.
-/

namespace Headshot

/-- Model of `String.prototype.toLowerCase` (ASCII, which covers every
pattern the code matches against). -/
def lowerStr (s : String) : String :=
  String.mk (s.toList.map Char.toLower)

/-- Model of `String.prototype.includes`: substring containment. -/
def strIncludes (s pat : String) : Bool :=
  (s.toList.tails).any (fun t => pat.toList.isPrefixOf t)

/-- Model of `String.prototype.endsWith`: suffix test. -/
def strEndsWith (s pat : String) : Bool :=
  pat.toList.isSuffixOf s.toList

/-- Model of `String.prototype.startsWith`. -/
def strStartsWith (s pat : String) : Bool :=
  pat.toList.isPrefixOf s.toList

/-- A browser `File`: the fields the code observes (`name`, `type`, `size`). -/
structure BFile where
  name : String
  type : String
  size : ℕ
deriving DecidableEq, Repr

/-! ## ImageUploader.tsx : validateFile -/

/-- The `validTypes` list of `validateFile` in `ImageUploader.tsx`. -/
def validTypes : List String :=
  ["image/jpeg", "image/jpg", "image/png", "image/webp",
   "image/heic", "image/heif"]

/-- The regex test `file.name.toLowerCase().match(/\.(jpg|jpeg|png|webp|heic|heif)$/)`:
the lowercased name ends in one of the six extensions. -/
def hasValidExtension (name : String) : Bool :=
  let l := lowerStr name
  strEndsWith l ".jpg" || strEndsWith l ".jpeg" || strEndsWith l ".png" ||
  strEndsWith l ".webp" || strEndsWith l ".heic" || strEndsWith l ".heif"

def invalidTypeMsg : String :=
  "Please select a valid image file (JPG, PNG, WebP, or HEIC)"

def tooLargeMsg : String := "File size must be less than 20MB"

def tooSmallMsg : String := "File appears to be too small or corrupted"

/-- The local `isValidType` of `validateFile`: accepted MIME type or
accepted extension. -/
def isValidFileType (file : BFile) : Bool :=
  validTypes.contains file.type || hasValidExtension file.name

/-- `validateFile` from `ImageUploader.tsx` (lines 40–64): `none` models the
`null` return (valid file), `some msg` the returned error string. -/
def validateFile (file : BFile) : Option String :=
  if !isValidFileType file then some invalidTypeMsg
  else if file.size > 20 * 1024 * 1024 then some tooLargeMsg
  else if file.size < 1024 then some tooSmallMsg
  else none

/-! ## promptGeneration.ts -/

inductive Gender | male | female | unknown
deriving DecidableEq, Repr

inductive AgeGroup | young | adult | mature | unknown
deriving DecidableEq, Repr

inductive Attire | casual | business | formal | unknown
deriving DecidableEq, Repr

inductive Setting | indoor | outdoor | studio | unknown
deriving DecidableEq, Repr

inductive Quality | high | medium | low
deriving DecidableEq, Repr

/-- `PersonAnalysis` from `promptGeneration.ts`. -/
structure PersonAnalysis where
  gender : Gender
  ageGroup : AgeGroup
  attire : Attire
  setting : Setting
  quality : Quality
deriving DecidableEq, Repr

/-- `ImageMetadata` from the image-processing module.  `aspectRatio` is a
JavaScript number (`width / height`), modelled as `ℚ`. -/
structure ImageMetadata where
  width : ℕ
  height : ℕ
  aspectRatio : ℚ
  format : String
  size : ℕ
  hasTransparency : Bool
deriving DecidableEq, Repr

/-- One entry of the `styleVariations` array of `generateHeadshotPrompts`. -/
structure StyleVariation where
  sname : String
  background : String
  attire : String
  lighting : String
  mood : String
  style : String
deriving DecidableEq, Repr

def qualitySettings : String :=
  "high resolution, studio photography, professional lighting, sharp focus, clean composition"

/-- The six-element `styleVariations` array (promptGeneration.ts lines 23–72). -/
def styleVariations : List StyleVariation :=
  [⟨"Corporate Executive", "clean white background", "formal business suit",
    "professional studio lighting with soft shadows",
    "confident and approachable expression", "corporate headshot photography style"⟩,
   ⟨"Creative Professional", "subtle gradient background", "modern business attire",
    "warm natural lighting", "friendly and creative expression",
    "contemporary portrait photography"⟩,
   ⟨"LinkedIn Profile", "soft blue professional background", "business casual outfit",
    "even studio lighting", "professional smile and direct eye contact",
    "social media profile photography"⟩,
   ⟨"Executive Portrait", "neutral gray backdrop", "premium business formal wear",
    "dramatic professional lighting", "serious and trustworthy demeanor",
    "executive portrait photography"⟩,
   ⟨"Approachable Professional", "soft warm background blur", "smart casual business attire",
    "soft diffused lighting", "warm smile and engaging expression",
    "lifestyle business photography"⟩,
   ⟨"Tech Professional", "minimalist clean background", "modern business casual",
    "crisp even lighting", "innovative and focused expression",
    "tech industry headshot style"⟩]

/-- The prompt template of `generateHeadshotPrompts` (line 78). -/
def renderPrompt (s : StyleVariation) : String :=
  "Professional headshot transformation: " ++ s.background ++ ", wearing " ++
  s.attire ++ ", " ++ s.lighting ++ ", " ++ s.mood ++ ", " ++ s.style ++ ", " ++
  qualitySettings ++
  ", maintain original facial features and identity, photorealistic transformation, 85mm lens, commercial photography quality"

/-- `generateHeadshotPrompts` (promptGeneration.ts lines 14–80).  The
`analysis` and `metadata` parameters are declared but never read by the
source function; they are kept to mirror its signature. -/
def generateHeadshotPrompts (_analysis : PersonAnalysis) (_metadata : ImageMetadata)
    (count : ℕ) : List String :=
  let selectedStyles := styleVariations.take (min count styleVariations.length)
  selectedStyles.map renderPrompt

/-- `calculateQualityScore` (promptGeneration.ts lines 121–167).
`0.75`, `1.33`, `0.5`, `2`, and the size thresholds in MB are modelled as
the rationals they denote. -/
def calculateQualityScore (analysis : PersonAnalysis) (metadata : ImageMetadata) : ℕ :=
  let resScore : ℕ :=
    if 1024 ≤ metadata.width ∧ 1024 ≤ metadata.height then 40
    else if 512 ≤ metadata.width ∧ 512 ≤ metadata.height then 25
    else 10
  let arScore : ℕ :=
    if (3 : ℚ)/4 ≤ metadata.aspectRatio ∧ metadata.aspectRatio ≤ 133/100 then 20
    else if (1 : ℚ)/2 ≤ metadata.aspectRatio ∧ metadata.aspectRatio ≤ 2 then 10
    else 5
  let qScore : ℕ :=
    if analysis.quality = Quality.high then 20
    else if analysis.quality = Quality.medium then 15
    else 5
  let sizeMB : ℚ := (metadata.size : ℚ) / (1024 * 1024)
  let sScore : ℕ :=
    if (1 : ℚ)/2 ≤ sizeMB ∧ sizeMB ≤ 5 then 10
    else if (1 : ℚ)/10 ≤ sizeMB ∧ sizeMB ≤ 10 then 5
    else 0
  let attireScore : ℕ :=
    if analysis.attire = Attire.business ∨ analysis.attire = Attire.formal then 10
    else if analysis.attire = Attire.casual then 5
    else 0
  min 100 (resScore + arScore + qScore + sScore + attireScore)

/-- Result metadata of `generateBatchPrompts`. -/
structure BatchMetadata where
  suggestedStyles : List String
  qualityScore : ℕ
deriving DecidableEq, Repr

/-- Result of `generateBatchPrompts`. -/
structure BatchPrompts where
  prompts : List String
  metadata : BatchMetadata
deriving DecidableEq, Repr

/-- `generateBatchPrompts` (promptGeneration.ts lines 85–116). -/
def generateBatchPrompts (analysis : PersonAnalysis) (metadata : ImageMetadata)
    (batchSize : ℕ) : BatchPrompts :=
  let prompts := generateHeadshotPrompts analysis metadata batchSize
  let qualityScore := calculateQualityScore analysis metadata
  let suggestedStyles :=
    (["Corporate Executive", "Creative Professional",
      "LinkedIn Profile", "Executive Portrait"] : List String).take batchSize
  ⟨prompts, ⟨suggestedStyles, qualityScore⟩⟩

def recLowRes : String :=
  "Use a higher resolution image (at least 512x512 pixels) for better results"

def recLowQuality : String :=
  "Try using a clearer, well-lit photo for optimal AI generation"

def recBadAspect : String :=
  "Use a portrait or square-oriented photo that focuses on the face"

def recNoAttire : String :=
  "Wearing professional attire in the photo will improve headshot results"

/-- `getImageRecommendations` (promptGeneration.ts lines 173–199): the four
conditional `push`es, all guarded by `qualityScore < 70`. -/
def getImageRecommendations (analysis : PersonAnalysis)
    (metadata : ImageMetadata) : List String :=
  let qualityScore := calculateQualityScore analysis metadata
  if qualityScore < 70 then
    (if metadata.width < 512 ∨ metadata.height < 512 then [recLowRes] else []) ++
    (if analysis.quality = Quality.low then [recLowQuality] else []) ++
    (if metadata.aspectRatio < (1 : ℚ)/2 ∨ (2 : ℚ) < metadata.aspectRatio then [recBadAspect] else []) ++
    (if analysis.attire = Attire.unknown then [recNoAttire] else [])
  else []

/-! ## imageProcessing module -/

/-- A `Blob` produced by the browser (heic2any or `canvas.toBlob`): only its
byte size is observable to the code. -/
structure Blob where
  bsize : ℕ
deriving DecidableEq, Repr

/-- Oracles for the browser and library effects the image-processing
functions depend on:
* `heic2any f` — outcome of the heic2any library call on `f` (`Except.error
  msg` models a thrown error whose `message` is `msg`);
* `loadImage f` — the decoded dimensions when an `Image` load of `f` fires
  `onload`; `none` when `onerror` fires or the load times out;
* `ctx2d` — whether `canvas.getContext('2d')` returns a context;
* `canvasToBlob w h f` — result of drawing `f` at `w × h` and calling
  `canvas.toBlob` (`none` models a `null` blob). -/
structure BrowserEnv where
  heic2any : BFile → Except String Blob
  loadImage : BFile → Option (ℕ × ℕ)
  ctx2d : Bool
  canvasToBlob : ℚ → ℚ → BFile → Option Blob

/-- `isHeicFile` (imageProcessing lines 54–58). -/
def isHeicFile (file : BFile) : Bool :=
  let isHeicType := file.type == "image/heic" || file.type == "image/heif"
  let isHeicExtension :=
    strEndsWith (lowerStr file.name) ".heic" || strEndsWith (lowerStr file.name) ".heif"
  isHeicType || isHeicExtension

/-- `validateImageFile` (imageProcessing lines 17–49): resolves
`img.width > 0 && img.height > 0` on load, `false` on error or timeout. -/
def validateImageFile (env : BrowserEnv) (file : BFile) : Bool :=
  match env.loadImage file with
  | some (w, h) => decide (0 < w) && decide (0 < h)
  | none => false

/-- The replacement `file.name.replace(/\.(heic|heif)$/i, '.png')`. -/
def replaceHeicExtWithPng (name : String) : String :=
  if strEndsWith (lowerStr name) ".heic" || strEndsWith (lowerStr name) ".heif" then
    name.dropRight 5 ++ ".png"
  else name

/-- The replacement `file.name.replace(/\.[^/.]+$/, '.png')`: the final
dot-extension (nonempty, containing no `.` or `/`) becomes `.png`; a name
without such an extension is unchanged. -/
def replacePathExtWithPng (name : String) : String :=
  let rev := name.toList.reverse
  let ext := rev.takeWhile (fun c => c ≠ '.')
  if ext.length < rev.length ∧ ext ≠ [] ∧ ¬ ext.contains '/' then
    String.mk ((rev.drop (ext.length + 1)).reverse) ++ ".png"
  else name

def heicLibFailedMsg (inner : String) : String :=
  "HEIC_CONVERSION_FAILED: " ++ inner ++
  ". Please convert your image to JPEG or PNG format on your device before uploading."

/-- `convertHeicToPng` (imageProcessing lines 63–100): heic2any conversion,
wrapping the produced blob in a PNG-typed file with the `.heic`/`.heif`
extension rewritten; a library failure is rethrown as
`HEIC_CONVERSION_FAILED: ...`. -/
def convertHeicToPng (env : BrowserEnv) (file : BFile) : Except String BFile :=
  match env.heic2any file with
  | Except.ok blob =>
      Except.ok ⟨replaceHeicExtWithPng file.name, "image/png", blob.bsize⟩
  | Except.error msg => Except.error (heicLibFailedMsg msg)

/-- `tryNativeHeicConversion` (imageProcessing lines 105–168): native-canvas
fallback — validate, load, draw at the image's own dimensions, `toBlob`. -/
def tryNativeHeicConversion (env : BrowserEnv) (file : BFile) : Except String BFile :=
  if !validateImageFile env file then
    Except.error "Browser does not support HEIC format natively"
  else
    match env.loadImage file with
    | none => Except.error "Browser cannot load HEIC image"
    | some (w, h) =>
        if !env.ctx2d then Except.error "Canvas context not available"
        else
          match env.canvasToBlob (w : ℚ) (h : ℚ) file with
          | some blob =>
              Except.ok ⟨replaceHeicExtWithPng file.name, "image/png", blob.bsize⟩
          | none => Except.error "Failed to convert HEIC using native browser support"

def heicNotSupportedMsg : String :=
  "HEIC_NOT_SUPPORTED: Your HEIC image cannot be processed in this browser. Please:\n\n1. Open the image on your iPhone/Mac\n2. Export or save it as JPEG or PNG\n3. Upload the converted file\n\nAlternatively, try using Safari browser which has better HEIC support."

/-- The non-HEIC branch of `convertImageToPng` (imageProcessing lines
195–261): validate, load, draw on a canvas at the image's dimensions,
`toBlob`, and wrap as a PNG-typed file with the extension rewritten. -/
def convertNonHeicToPng (env : BrowserEnv) (file : BFile) : Except String BFile :=
  if !validateImageFile env file then
    Except.error "Invalid or corrupted image file"
  else
    match env.loadImage file with
    | none =>
        Except.error "Unable to load image - file may be corrupted or in an unsupported format"
    | some (w, h) =>
        if !env.ctx2d then Except.error "Unable to get canvas rendering context"
        else
          match env.canvasToBlob (w : ℚ) (h : ℚ) file with
          | some blob =>
              Except.ok ⟨replacePathExtWithPng file.name, "image/png", blob.bsize⟩
          | none => Except.error "Failed to convert image to PNG format"

/-- `convertImageToPng` (imageProcessing lines 174–261): HEIC files go
through `convertHeicToPng`, then `tryNativeHeicConversion`, then the fixed
`HEIC_NOT_SUPPORTED` error; other files take the canvas path. -/
def convertImageToPng (env : BrowserEnv) (file : BFile) : Except String BFile :=
  if isHeicFile file then
    match convertHeicToPng env file with
    | Except.ok converted => Except.ok converted
    | Except.error _ =>
        match tryNativeHeicConversion env file with
        | Except.ok converted => Except.ok converted
        | Except.error _ => Except.error heicNotSupportedMsg
  else
    convertNonHeicToPng env file

/-- The dimension computation inside `optimizeImageSize` (imageProcessing
lines 292–299): scale by `Math.min(maxWidth/width, maxHeight/height)` when
either dimension exceeds its limit. -/
def optimizeDims (width height maxWidth maxHeight : ℚ) : ℚ × ℚ :=
  if maxWidth < width ∨ maxHeight < height then
    let ratio := min (maxWidth / width) (maxHeight / height)
    (width * ratio, height * ratio)
  else (width, height)

/-- The promise body of `optimizeImageSize` on a non-HEIC file
(imageProcessing lines 273–348). -/
def optimizeImageSizeCore (env : BrowserEnv) (file : BFile)
    (maxWidth maxHeight : ℚ) : Except String BFile :=
  if !validateImageFile env file then
    Except.error "Invalid image file for optimization"
  else
    match env.loadImage file with
    | none => Except.error "Unable to load image for optimization"
    | some (w, h) =>
        let dims := optimizeDims (w : ℚ) (h : ℚ) maxWidth maxHeight
        if !env.ctx2d then Except.error "Unable to get canvas context for optimization"
        else
          match env.canvasToBlob dims.1 dims.2 file with
          | some blob =>
              Except.ok ⟨replacePathExtWithPng file.name, "image/png", blob.bsize⟩
          | none => Except.error "Failed to optimize image"

/-- `optimizeImageSize` (imageProcessing lines 266–348), default limits
1024 × 1024.  The source recurses after converting a HEIC file; the
converted file is never HEIC (`convertImageToPng_not_heic`), so the
recursion is unfolded once. -/
def optimizeImageSize (env : BrowserEnv) (file : BFile)
    (maxWidth : ℚ := 1024) (maxHeight : ℚ := 1024) : Except String BFile :=
  if isHeicFile file then
    match convertImageToPng env file with
    | Except.ok converted => optimizeImageSizeCore env converted maxWidth maxHeight
    | Except.error msg => Except.error msg
  else
    optimizeImageSizeCore env file maxWidth maxHeight

/-- `getImageMetadata` (imageProcessing lines 353–403) on a non-HEIC file:
validate, load, and read off dimensions and file properties. -/
def getImageMetadataCore (env : BrowserEnv) (file : BFile) :
    Except String ImageMetadata :=
  if !validateImageFile env file then
    Except.error "Invalid image file for metadata extraction"
  else
    match env.loadImage file with
    | none => Except.error "Unable to extract image metadata"
    | some (w, h) =>
        Except.ok ⟨w, h, (w : ℚ) / (h : ℚ), file.type, file.size,
          file.type == "image/png" || file.type == "image/webp"⟩

/-- `analyzeImageContent` (imageProcessing lines 426–480) after the
`getImageMetadata` await: the pure computation from the file's name and the
extracted metadata. -/
def analyzeImageContent (name : String) (metadata : ImageMetadata) : PersonAnalysis :=
  let filename := lowerStr name
  let gender :=
    if strIncludes filename "female" || strIncludes filename "woman" ||
       strIncludes filename "girl" then Gender.female
    else if strIncludes filename "male" || strIncludes filename "man" ||
       strIncludes filename "boy" then Gender.male
    else Gender.unknown
  let ageGroup :=
    if strIncludes filename "young" || strIncludes filename "teen" ||
       strIncludes filename "junior" then AgeGroup.young
    else if strIncludes filename "senior" || strIncludes filename "elder" ||
       strIncludes filename "mature" then AgeGroup.mature
    else AgeGroup.adult
  let attire :=
    if strIncludes filename "business" || strIncludes filename "professional" ||
       strIncludes filename "corporate" then Attire.business
    else if strIncludes filename "formal" || strIncludes filename "suit" ||
       strIncludes filename "dress" then Attire.formal
    else if strIncludes filename "casual" || strIncludes filename "tshirt" ||
       strIncludes filename "jeans" then Attire.casual
    else Attire.unknown
  let quality :=
    if 1024 ≤ metadata.width ∧ 1024 ≤ metadata.height then Quality.high
    else if 512 ≤ metadata.width ∧ 512 ≤ metadata.height then Quality.medium
    else Quality.low
  ⟨gender, ageGroup, attire, Setting.unknown, quality⟩

/-! ## HeadshotGenerator component : generateHeadshots / regenerateImage -/

/-- The argument record of `blink.ai.modifyImage`. -/
structure ModifyImageRequest where
  images : List String
  prompt : String
  quality : String
  n : ℕ
deriving DecidableEq, Repr

/-- The fixed sentence prepended to every generation prompt. -/
def headshotPromptIntro : String :=
  "Generate professional business headshot with studio lighting for this person. "

/-- The `blink.ai.modifyImage` argument built by `generateHeadshots` and
`regenerateImage`: one image URL, the prefixed prompt, quality `high`, `n = 1`. -/
def mkModifyImageRequest (url promptText : String) : ModifyImageRequest :=
  ⟨[url], headshotPromptIntro ++ promptText, "high", 1⟩

/-- A `GeneratedImage` record (HeadshotGenerator component). -/
structure GenImage where
  url : String
  style : String
  prompt : String
  index : ℕ
deriving DecidableEq, Repr

/-- Observable actions of the generation loop: a concurrently issued batch
of API requests (`Promise.all`), a sequential per-item retry request, and a
`setTimeout` delay between batches. -/
inductive GenEvent where
  | batchRequests (rs : List ModifyImageRequest)
  | retryRequest (r : ModifyImageRequest)
  | delayMs (ms : ℕ)
deriving DecidableEq, Repr

/-- Oracles for the external AI API:
* `firstAttemptOk j` — whether the batched `modifyImage` call for item `j`
  succeeds (the batch's `Promise.all` succeeds iff all of its items do);
* `retryOk j` — whether the sequential retry call for item `j` succeeds;
* `urlAt j` / `retryUrlAt j` — the URL the API returns for item `j` in the
  batched, resp. retry, call. -/
structure AIEnv where
  firstAttemptOk : ℕ → Bool
  retryOk : ℕ → Bool
  urlAt : ℕ → String
  retryUrlAt : ℕ → String

def styleFallback (i : ℕ) : String := "Style " ++ toString (i + 1)

/-- `metadata.suggestedStyles[actualIndex] || 'Style N'` — JavaScript `||`
falls back on `undefined` (out of range) and on the empty string. -/
def styleAt (styles : List String) (i : ℕ) : String :=
  match styles.get? i with
  | some s => if s = "" then styleFallback i else s
  | none => styleFallback i

/-- The `for (let i = 0; i < prompts.length; i += batchSize)` loop of
`generateHeadshots` (HeadshotGenerator lines 95–163) with `batchSize = 2`,
started at index `i`, under the skip-and-continue retry semantics the
source's own comment (`// Continue with other images`, line 154) documents:
a failed `Promise.all` falls back to sequential per-item retries, a failed
retry contributes no image, and a 500 ms delay follows every batch except
the last.  The code as written does not realize that intent — its retry
`catch` (line 153) reads `actualIndex`, a `const` declared inside the `try`
(line 133) and out of scope in the `catch`, so the `console.error` template
itself throws a `ReferenceError` and aborts the run; that actual behavior
is `genLoopReal`.  Every request the actual loop issues is also issued
here, so this loop over-approximates the set of sent requests, which is how
the request-shape theorem uses it. -/
def genLoop (env : AIEnv) (styles : List String) (url : String)
    (prompts : List String) (i : ℕ) : List GenEvent × List GenImage :=
  if _h : i < prompts.length then
    let batch := (prompts.drop i).take 2
    let reqs := batch.map (mkModifyImageRequest url)
    let allOk := (List.range batch.length).all (fun j => env.firstAttemptOk (i + j))
    let batchImages :=
      batch.enum.map (fun p => GenImage.mk (env.urlAt (i + p.1))
        (styleAt styles (i + p.1)) p.2 (i + p.1))
    let retryEvents :=
      batch.map (fun p => GenEvent.retryRequest (mkModifyImageRequest url p))
    let retryImages :=
      (batch.enum.filter (fun p => env.retryOk (i + p.1))).map
        (fun p => GenImage.mk (env.retryUrlAt (i + p.1))
          (styleAt styles (i + p.1)) p.2 (i + p.1))
    let events := if allOk then [GenEvent.batchRequests reqs]
                  else GenEvent.batchRequests reqs :: retryEvents
    let images := if allOk then batchImages else retryImages
    let delayEvents := if i + 2 < prompts.length then [GenEvent.delayMs 500] else []
    let rest := genLoop env styles url prompts (i + 2)
    (events ++ delayEvents ++ rest.1, images ++ rest.2)
  else ([], [])
termination_by prompts.length - i

/-- The outcome of one `generateHeadshots` run: the emitted events, the
`generatedImages` state after the run, and whether the success toast (vs
the failure toast) was shown. -/
structure GenRun where
  events : List GenEvent
  committed : List GenImage
  succeeded : Bool
deriving DecidableEq, Repr

/-- The single `blink.ai.modifyImage` argument of `regenerateImage`
(HeadshotGenerator lines 239–244), built from the stored prompt of the
image being regenerated. -/
def regenerateRequest (url : String) (imageToRegenerate : GenImage) :
    ModifyImageRequest :=
  mkModifyImageRequest url imageToRegenerate.prompt

def requestsOfEvent : GenEvent → List ModifyImageRequest
  | GenEvent.batchRequests rs => rs
  | GenEvent.retryRequest r => [r]
  | GenEvent.delayMs _ => []

/-- All API requests occurring in a list of events. -/
def requestsOf (evs : List GenEvent) : List ModifyImageRequest :=
  (evs.map requestsOfEvent).flatten

/-- Claim-side description: the prompt list cut into chunks of two, the
last chunk possibly a singleton. -/
def chunksOfTwo {α : Type} : List α → List (List α)
  | [] => []
  | [a] => [[a]]
  | a :: b :: rest => [a, b] :: chunksOfTwo rest

/-- Claim-side description of the generation trace under the intended
skip-and-continue retry semantics (see `genLoop`): one concurrent batch per
chunk, per-item retries exactly when the chunk's `Promise.all` fails, and a
500 ms delay after every batch but the last.  The actual loop aborts at the
first failed retry (`genLoopReal`), so this trace over-approximates the
events that actually occur. -/
def batchedTrace (env : AIEnv) (url : String) : ℕ → List (List String) → List GenEvent
  | _, [] => []
  | i, c :: rest =>
      let reqs := c.map (mkModifyImageRequest url)
      let allOk := (List.range c.length).all (fun j => env.firstAttemptOk (i + j))
      GenEvent.batchRequests reqs ::
        ((if allOk then [] else
            c.map (fun p => GenEvent.retryRequest (mkModifyImageRequest url p))) ++
         (if rest.isEmpty then [] else [GenEvent.delayMs 500]) ++
         batchedTrace env url (i + c.length) rest)

/-- Claim-side description of the images collected by the generation loop
under the intended skip-and-continue retry semantics (see `genLoop`): for
each chunk, the whole chunk (from the batched call) when its `Promise.all`
succeeds, and otherwise exactly the items whose individual retry succeeds.
The actual loop aborts at the first failed retry (`genLoopReal`). -/
def collectedImages (env : AIEnv) (styles : List String) :
    ℕ → List (List String) → List GenImage
  | _, [] => []
  | i, c :: rest =>
      let allOk := (List.range c.length).all (fun j => env.firstAttemptOk (i + j))
      (if allOk then
        c.enum.map (fun p => GenImage.mk (env.urlAt (i + p.1))
          (styleAt styles (i + p.1)) p.2 (i + p.1))
      else
        (c.enum.filter (fun p => env.retryOk (i + p.1))).map
          (fun p => GenImage.mk (env.retryUrlAt (i + p.1))
            (styleAt styles (i + p.1)) p.2 (i + p.1))) ++
      collectedImages env styles (i + c.length) rest

/-- The sequential per-item retry over a failed batch as the source actually
behaves (HeadshotGenerator lines 131–156): each item issues a retry request;
a successful retry pushes its image and the loop continues, but on a failed
retry the `catch` (line 153) reads `actualIndex` — a `const` declared at
line 133 inside the `try` and out of scope in the `catch` — so the
`console.error` template itself throws a `ReferenceError`.  The `none`
result models that abort; retries stop at the failed item. -/
def retryBatchReal (env : AIEnv) (styles : List String) (url : String) :
    ℕ → List String → List GenEvent × Option (List GenImage)
  | _, [] => ([], some [])
  | i, p :: rest =>
      let ev := GenEvent.retryRequest (mkModifyImageRequest url p)
      if env.retryOk i then
        let next := retryBatchReal env styles url (i + 1) rest
        (ev :: next.1,
         next.2.map (fun imgs =>
           GenImage.mk (env.retryUrlAt i) (styleAt styles i) p i :: imgs))
      else ([ev], none)

/-- The generation loop of `generateHeadshots` with the actual
retry-failure behavior: the `ReferenceError` escaping the retry `catch`
aborts the remaining retries of the batch, all later batches and all later
500 ms delays (second component `none`); images collected before the abort
are lost with the aborted run. -/
def genLoopReal (env : AIEnv) (styles : List String) (url : String)
    (prompts : List String) (i : ℕ) : List GenEvent × Option (List GenImage) :=
  if _h : i < prompts.length then
    let batch := (prompts.drop i).take 2
    let reqs := batch.map (mkModifyImageRequest url)
    let allOk := (List.range batch.length).all (fun j => env.firstAttemptOk (i + j))
    let delayEvents := if i + 2 < prompts.length then [GenEvent.delayMs 500] else []
    if allOk then
      let batchImages := batch.enum.map (fun p => GenImage.mk (env.urlAt (i + p.1))
        (styleAt styles (i + p.1)) p.2 (i + p.1))
      let rest := genLoopReal env styles url prompts (i + 2)
      (GenEvent.batchRequests reqs :: (delayEvents ++ rest.1),
       rest.2.map (fun imgs => batchImages ++ imgs))
    else
      match retryBatchReal env styles url i batch with
      | (revs, some rimgs) =>
          let rest := genLoopReal env styles url prompts (i + 2)
          (GenEvent.batchRequests reqs :: (revs ++ delayEvents ++ rest.1),
           rest.2.map (fun imgs => rimgs ++ imgs))
      | (revs, none) => (GenEvent.batchRequests reqs :: revs, none)
  else ([], some [])
termination_by prompts.length - i

/-- `generateHeadshots` (HeadshotGenerator lines 56–181) after an HTTPS
image URL is available, with the actual failure path: derive prompts and
styles with `generateBatchPrompts` and run the loop; a `ReferenceError`
from the retry `catch` lands in the outer catch — error toast, nothing
committed — even when earlier batches had already produced images.  When
the loop completes, zero produced images throws (caught: failure, state
unchanged) and otherwise `prev ++ images` is committed with the success
toast. -/
def generateHeadshots (env : AIEnv) (analysis : PersonAnalysis)
    (metadata : ImageMetadata) (count : ℕ) (url : String)
    (prev : List GenImage) : GenRun :=
  let bp := generateBatchPrompts analysis metadata count
  match genLoopReal env bp.metadata.suggestedStyles url bp.prompts 0 with
  | (evs, none) => ⟨evs, prev, false⟩
  | (evs, some imgs) =>
      if imgs.length = 0 then ⟨evs, prev, false⟩
      else ⟨evs, prev ++ imgs, true⟩

/-- An API environment in which the batched calls for items 0 and 1 succeed
and every other call — batched or retried — fails. -/
def bugEnv : AIEnv := ⟨fun j => decide (j < 2), fun _ => false, fun _ => "u", fun _ => "v"⟩

/-! ## Fixed timeouts guarding image-load promises -/

inductive TimeoutBehavior | resolveFalse | rejectError
deriving DecidableEq, Repr

/-- A `setTimeout` guard on a promise wrapping a browser image load: the
registered duration and what the callback does to the promise. -/
structure LoadGuard where
  timeoutMs : ℕ
  onTimeout : TimeoutBehavior
deriving DecidableEq, Repr

/-- imageProcessing lines 38–41: `validateImageFile` resolves `false` after 5000 ms. -/
def validateImageFileGuard : LoadGuard := ⟨5000, TimeoutBehavior.resolveFalse⟩

/-- imageProcessing lines 393–396: `getImageMetadata` rejects after 5000 ms. -/
def getImageMetadataGuard : LoadGuard := ⟨5000, TimeoutBehavior.rejectError⟩

/-- imageProcessing lines 251–254: `convertImageToPng` rejects after 10000 ms. -/
def convertImageToPngGuard : LoadGuard := ⟨10000, TimeoutBehavior.rejectError⟩

/-- imageProcessing lines 159–162: `tryNativeHeicConversion` rejects after 10000 ms. -/
def tryNativeHeicConversionGuard : LoadGuard := ⟨10000, TimeoutBehavior.rejectError⟩

/-- imageProcessing lines 338–341: `optimizeImageSize` rejects after 10000 ms. -/
def optimizeImageSizeGuard : LoadGuard := ⟨10000, TimeoutBehavior.rejectError⟩

/-- When a guarded promise settles: at the image event if it fires before
the timeout, and at the timeout otherwise (`none` models an event that
never fires). -/
def settleTime (eventAt : Option ℕ) (g : LoadGuard) : ℕ :=
  match eventAt with
  | some t => min t g.timeoutMs
  | none => g.timeoutMs

/-! # Theorems -/

/-- **C2**: `validateFile` returns no error (`null`) iff the file's MIME type
is one of `image/jpeg`, `image/jpg`, `image/png`, `image/webp`, `image/heic`,
`image/heif` or its lowercased name ends in `.jpg`/`.jpeg`/`.png`/`.webp`/
`.heic`/`.heif`, and its size is at most `20 * 1024 * 1024` bytes, and its
size is at least 1024 bytes; otherwise it returns the corresponding error
string (invalid type, over 20 MB, or under 1 KB). -/
theorem validateFile_spec (f : BFile) :
    (isValidFileType f = true ↔
      (f.type ∈ validTypes ∨ hasValidExtension f.name = true)) ∧
    (validateFile f = none ↔
      (isValidFileType f = true ∧ f.size ≤ 20 * 1024 * 1024 ∧ 1024 ≤ f.size)) ∧
    (isValidFileType f = false → validateFile f = some invalidTypeMsg) ∧
    (isValidFileType f = true → 20 * 1024 * 1024 < f.size →
      validateFile f = some tooLargeMsg) ∧
    (isValidFileType f = true → f.size ≤ 20 * 1024 * 1024 → f.size < 1024 →
      validateFile f = some tooSmallMsg) := by
  refine ⟨by simp [isValidFileType], ?_, ?_, ?_, ?_⟩ <;>
    unfold validateFile <;>
    cases hv : isValidFileType f <;>
    split_ifs <;> simp_all

/-- Witness for `validateFile_spec`: a 2 KB PNG file passes validation. -/
theorem validateFile_spec_witness :
    validateFile ⟨"a.png", "image/png", 2048⟩ = none :=
  (validateFile_spec ⟨"a.png", "image/png", 2048⟩).2.1.mpr
    ⟨by decide, by decide, by decide⟩

/-- **C9**: the prompt list returned by `generateHeadshotPrompts` depends only
on `count` (any two calls with the same count and arbitrary analysis/metadata
agree) and has length `min count 6`; `generateBatchPrompts` returns
`suggestedStyles` of length `min batchSize 4`, so for `batchSize` in `5..8`
there are more prompts than named styles. -/
theorem generateHeadshotPrompts_spec :
    (∀ (a₁ a₂ : PersonAnalysis) (m₁ m₂ : ImageMetadata) (count : ℕ),
      generateHeadshotPrompts a₁ m₁ count = generateHeadshotPrompts a₂ m₂ count) ∧
    (∀ (a : PersonAnalysis) (m : ImageMetadata) (count : ℕ),
      (generateHeadshotPrompts a m count).length = min count 6) ∧
    (∀ (a : PersonAnalysis) (m : ImageMetadata) (b : ℕ),
      ((generateBatchPrompts a m b).metadata.suggestedStyles).length = min b 4) ∧
    (∀ (a : PersonAnalysis) (m : ImageMetadata) (b : ℕ), 5 ≤ b → b ≤ 8 →
      ((generateBatchPrompts a m b).metadata.suggestedStyles).length <
        (generateBatchPrompts a m b).prompts.length) := by
  have hlen : ∀ (a : PersonAnalysis) (m : ImageMetadata) (count : ℕ),
      (generateHeadshotPrompts a m count).length = min count 6 := by
    intro a m count
    simp [generateHeadshotPrompts, styleVariations]
  have hsty : ∀ (a : PersonAnalysis) (m : ImageMetadata) (b : ℕ),
      ((generateBatchPrompts a m b).metadata.suggestedStyles).length = min b 4 := by
    intro a m b
    simp [generateBatchPrompts]
  refine ⟨fun _ _ _ _ _ => rfl, hlen, hsty, fun a m b h5 h8 => ?_⟩
  have : (generateBatchPrompts a m b).prompts.length = min b 6 := hlen a m b
  rw [hsty, this]
  omega

/-- Witness for `generateHeadshotPrompts_spec`: at `batchSize = 5` there are
5 prompts but only 4 named styles. -/
theorem generateHeadshotPrompts_spec_witness :
    ((generateBatchPrompts ⟨Gender.unknown, AgeGroup.adult, Attire.unknown,
        Setting.unknown, Quality.low⟩
        ⟨100, 100, 1, "image/png", 4096, true⟩ 5).metadata.suggestedStyles).length <
      (generateBatchPrompts ⟨Gender.unknown, AgeGroup.adult, Attire.unknown,
        Setting.unknown, Quality.low⟩
        ⟨100, 100, 1, "image/png", 4096, true⟩ 5).prompts.length :=
  generateHeadshotPrompts_spec.2.2.2 _ _ 5 (by norm_num) (by norm_num)

/-- **C10**: `calculateQualityScore` always lies between 20 and 100 inclusive
(each branch contributes at least its minimum and the total is capped at
100), and `getImageRecommendations` returns the empty list whenever the
score is at least 70. -/
theorem calculateQualityScore_spec (a : PersonAnalysis) (m : ImageMetadata) :
    20 ≤ calculateQualityScore a m ∧ calculateQualityScore a m ≤ 100 ∧
    (70 ≤ calculateQualityScore a m → getImageRecommendations a m = []) := by
  refine ⟨?_, ?_, fun h => ?_⟩
  · simp only [calculateQualityScore]
    split_ifs <;> omega
  · simp only [calculateQualityScore]
    split_ifs <;> omega
  · simp only [getImageRecommendations]
    rw [if_neg (by omega)]

/-- Witness for `calculateQualityScore_spec`: a high-quality business image
scores at least 70, hence gets no recommendations. -/
theorem calculateQualityScore_spec_witness :
    getImageRecommendations
      ⟨Gender.male, AgeGroup.adult, Attire.business, Setting.unknown, Quality.high⟩
      ⟨1024, 1024, 1, "image/png", 1048576, true⟩ = [] :=
  (calculateQualityScore_spec _ _).2.2 (by norm_num [calculateQualityScore])

/-- **C1** (counterexample): the claim says every field of the analysis record
is derived from substring matching on the lowercased filename, but two files
with the same name and different decoded dimensions receive different
analyses (`quality` comes from the metadata's resolution). -/
theorem analyzeImageContent_counterexample :
    analyzeImageContent "photo.png" ⟨1024, 1024, 1, "image/png", 500000, true⟩ ≠
      analyzeImageContent "photo.png" ⟨100, 100, 1, "image/png", 500000, true⟩ := by
  decide

/-- **C1** (amended): `gender`, `ageGroup` and `attire` are derived by
substring matching on the lowercased filename exactly as claimed (and depend
on nothing but the filename), while `setting` is the constant `unknown` and
`quality` is derived from the metadata's resolution (≥1024×1024 high,
≥512×512 medium, else low), not from the filename. -/
theorem analyzeImageContent_spec (name : String) (md md' : ImageMetadata) :
    ((analyzeImageContent name md).gender = (analyzeImageContent name md').gender ∧
     (analyzeImageContent name md).ageGroup = (analyzeImageContent name md').ageGroup ∧
     (analyzeImageContent name md).attire = (analyzeImageContent name md').attire) ∧
    (analyzeImageContent name md).gender =
      (if strIncludes (lowerStr name) "female" || strIncludes (lowerStr name) "woman" ||
          strIncludes (lowerStr name) "girl" then Gender.female
       else if strIncludes (lowerStr name) "male" || strIncludes (lowerStr name) "man" ||
          strIncludes (lowerStr name) "boy" then Gender.male
       else Gender.unknown) ∧
    (analyzeImageContent name md).ageGroup =
      (if strIncludes (lowerStr name) "young" || strIncludes (lowerStr name) "teen" ||
          strIncludes (lowerStr name) "junior" then AgeGroup.young
       else if strIncludes (lowerStr name) "senior" || strIncludes (lowerStr name) "elder" ||
          strIncludes (lowerStr name) "mature" then AgeGroup.mature
       else AgeGroup.adult) ∧
    (analyzeImageContent name md).attire =
      (if strIncludes (lowerStr name) "business" || strIncludes (lowerStr name) "professional" ||
          strIncludes (lowerStr name) "corporate" then Attire.business
       else if strIncludes (lowerStr name) "formal" || strIncludes (lowerStr name) "suit" ||
          strIncludes (lowerStr name) "dress" then Attire.formal
       else if strIncludes (lowerStr name) "casual" || strIncludes (lowerStr name) "tshirt" ||
          strIncludes (lowerStr name) "jeans" then Attire.casual
       else Attire.unknown) ∧
    (analyzeImageContent name md).setting = Setting.unknown ∧
    (analyzeImageContent name md).quality =
      (if 1024 ≤ md.width ∧ 1024 ≤ md.height then Quality.high
       else if 512 ≤ md.width ∧ 512 ≤ md.height then Quality.medium
       else Quality.low) :=
  ⟨⟨rfl, rfl, rfl⟩, rfl, rfl, rfl, rfl, rfl⟩

/-- **C7**: each image-load-based operation registers a fixed `setTimeout`
guard — 5000 ms for `validateImageFile` (resolving `false`) and
`getImageMetadata` (rejecting), 10000 ms for `convertImageToPng`,
`tryNativeHeicConversion` and `optimizeImageSize` (rejecting) — and a
promise guarded this way settles no later than its timeout, whether or not
the image event ever fires. -/
theorem imageLoad_timeout_spec (eventAt : Option ℕ) :
    (settleTime eventAt validateImageFileGuard ≤ 5000 ∧
     validateImageFileGuard.onTimeout = TimeoutBehavior.resolveFalse) ∧
    (settleTime eventAt getImageMetadataGuard ≤ 5000 ∧
     getImageMetadataGuard.onTimeout = TimeoutBehavior.rejectError) ∧
    (settleTime eventAt convertImageToPngGuard ≤ 10000 ∧
     convertImageToPngGuard.onTimeout = TimeoutBehavior.rejectError) ∧
    (settleTime eventAt tryNativeHeicConversionGuard ≤ 10000 ∧
     tryNativeHeicConversionGuard.onTimeout = TimeoutBehavior.rejectError) ∧
    (settleTime eventAt optimizeImageSizeGuard ≤ 10000 ∧
     optimizeImageSizeGuard.onTimeout = TimeoutBehavior.rejectError) := by
  cases eventAt <;>
    simp [settleTime, validateImageFileGuard, getImageMetadataGuard,
      convertImageToPngGuard, tryNativeHeicConversionGuard,
      optimizeImageSizeGuard]

/-- Helper: whenever the canvas pipeline of `optimizeImageSizeCore`
succeeds, the produced file is PNG-typed and has the extension rewritten. -/
theorem optimizeImageSizeCore_ok (env : BrowserEnv) (f : BFile)
    (maxW maxH : ℚ) (g : BFile)
    (hok : optimizeImageSizeCore env f maxW maxH = Except.ok g) :
    g.type = "image/png" ∧ g.name = replacePathExtWithPng f.name := by
  unfold optimizeImageSizeCore at hok
  split at hok
  · exact absurd hok (by simp)
  · split at hok
    · exact absurd hok (by simp)
    · split at hok
      · exact absurd hok (by simp)
      · dsimp only at hok
        split at hok
        · cases hok
          exact ⟨rfl, rfl⟩
        · exact absurd hok (by simp)

/-- **C3**: for HEIC/HEIF files `convertImageToPng` follows exactly the
fallback chain — `convertHeicToPng` (heic2any), then
`tryNativeHeicConversion`, then the fixed instructional error whose message
starts with `HEIC_NOT_SUPPORTED:` — and non-HEIC files never enter the
chain (their result is the canvas path, independent of the HEIC
converters). -/
theorem convertImageToPng_heic_chain :
    (∀ (env : BrowserEnv) (f g : BFile), isHeicFile f = true →
      convertHeicToPng env f = Except.ok g →
      convertImageToPng env f = Except.ok g) ∧
    (∀ (env : BrowserEnv) (f : BFile) (e : String) (g : BFile),
      isHeicFile f = true →
      convertHeicToPng env f = Except.error e →
      tryNativeHeicConversion env f = Except.ok g →
      convertImageToPng env f = Except.ok g) ∧
    (∀ (env : BrowserEnv) (f : BFile) (e e' : String), isHeicFile f = true →
      convertHeicToPng env f = Except.error e →
      tryNativeHeicConversion env f = Except.error e' →
      convertImageToPng env f = Except.error heicNotSupportedMsg) ∧
    strStartsWith heicNotSupportedMsg "HEIC_NOT_SUPPORTED:" = true ∧
    (∀ (env : BrowserEnv) (f : BFile), isHeicFile f = false →
      convertImageToPng env f = convertNonHeicToPng env f) ∧
    (∀ (env env' : BrowserEnv) (f : BFile), isHeicFile f = false →
      env.loadImage = env'.loadImage → env.ctx2d = env'.ctx2d →
      env.canvasToBlob = env'.canvasToBlob →
      convertImageToPng env f = convertImageToPng env' f) := by
  refine ⟨?_, ?_, ?_, by decide, ?_, ?_⟩
  · intro env f g hf hc
    simp [convertImageToPng, hf, hc]
  · intro env f e g hf hc hn
    simp [convertImageToPng, hf, hc, hn]
  · intro env f e e' hf hc hn
    simp [convertImageToPng, hf, hc, hn]
  · intro env f hf
    simp [convertImageToPng, hf]
  · intro env env' f hf h1 h2 h3
    simp only [convertImageToPng, hf, Bool.false_eq_true, if_false]
    unfold convertNonHeicToPng validateImageFile
    rw [h1, h2, h3]

/-- Witness for `convertImageToPng_heic_chain`: a HEIC file in an
environment where heic2any throws and the browser cannot load the image
ends in the fixed instructional error. -/
theorem convertImageToPng_heic_chain_witness :
    convertImageToPng
      ⟨fun _ => Except.error "boom", fun _ => none, true, fun _ _ _ => none⟩
      ⟨"pic.heic", "image/heic", 5000⟩ = Except.error heicNotSupportedMsg :=
  convertImageToPng_heic_chain.2.2.1
    ⟨fun _ => Except.error "boom", fun _ => none, true, fun _ _ _ => none⟩
    ⟨"pic.heic", "image/heic", 5000⟩ _ _ (by decide) rfl rfl

/-- **C6**: `optimizeImageSize` (limits defaulting to 1024 × 1024) leaves the
dimensions unchanged when both are within the limits, and otherwise scales
both by the single factor `min (maxWidth/w) (maxHeight/h)`; the resulting
dimensions are at most the limits and the aspect ratio is preserved
(`w'·h = h'·w`); a successful result is always of type `image/png` with the
extension rewritten to `.png`. -/
theorem optimizeImageSize_spec :
    (∀ w h maxW maxH : ℚ, 0 < w → 0 < h → 0 < maxW → 0 < maxH →
      (w ≤ maxW ∧ h ≤ maxH → optimizeDims w h maxW maxH = (w, h)) ∧
      (¬(w ≤ maxW ∧ h ≤ maxH) →
        optimizeDims w h maxW maxH =
          (w * min (maxW / w) (maxH / h), h * min (maxW / w) (maxH / h))) ∧
      (optimizeDims w h maxW maxH).1 ≤ maxW ∧
      (optimizeDims w h maxW maxH).2 ≤ maxH ∧
      (optimizeDims w h maxW maxH).1 * h = (optimizeDims w h maxW maxH).2 * w) ∧
    (∀ (env : BrowserEnv) (f : BFile),
      optimizeImageSize env f = optimizeImageSize env f 1024 1024) ∧
    (∀ (env : BrowserEnv) (f : BFile) (maxW maxH : ℚ) (g : BFile),
      optimizeImageSize env f maxW maxH = Except.ok g →
      g.type = "image/png") ∧
    (∀ (env : BrowserEnv) (f : BFile) (maxW maxH : ℚ) (g : BFile),
      isHeicFile f = false →
      optimizeImageSize env f maxW maxH = Except.ok g →
      g.name = replacePathExtWithPng f.name) := by
  refine ⟨?_, fun _ _ => rfl, ?_, ?_⟩
  · intro w h maxW maxH hw hh hW hH
    refine ⟨fun hle => ?_, fun hgt => ?_, ?_, ?_, ?_⟩
    · rw [optimizeDims, if_neg (by simp only [not_or, not_lt]; exact ⟨hle.1, hle.2⟩)]
    · rw [optimizeDims, if_pos]
      rcases not_and_or.mp hgt with h1 | h2
      · exact Or.inl (not_le.mp h1)
      · exact Or.inr (not_le.mp h2)
    · rw [optimizeDims]
      split_ifs with hc
      · calc w * min (maxW / w) (maxH / h)
            ≤ w * (maxW / w) := mul_le_mul_of_nonneg_left (min_le_left _ _) hw.le
          _ = maxW := by rw [mul_comm]; exact div_mul_cancel₀ _ (ne_of_gt hw)
      · simp only [not_or, not_lt] at hc
        exact hc.1
    · rw [optimizeDims]
      split_ifs with hc
      · calc h * min (maxW / w) (maxH / h)
            ≤ h * (maxH / h) := mul_le_mul_of_nonneg_left (min_le_right _ _) hh.le
          _ = maxH := by rw [mul_comm]; exact div_mul_cancel₀ _ (ne_of_gt hh)
      · simp only [not_or, not_lt] at hc
        exact hc.2
    · rw [optimizeDims]
      split_ifs with hc
      · ring
      · ring
  · intro env f maxW maxH g hok
    unfold optimizeImageSize at hok
    split at hok
    · split at hok
      · exact (optimizeImageSizeCore_ok _ _ _ _ _ hok).1
      · exact absurd hok (by simp)
    · exact (optimizeImageSizeCore_ok _ _ _ _ _ hok).1
  · intro env f maxW maxH g hf hok
    rw [optimizeImageSize, if_neg (by simp [hf])] at hok
    exact (optimizeImageSizeCore_ok _ _ _ _ _ hok).2

/-- Witness for `optimizeImageSize_spec`: a 2000 × 1000 image against
1024 × 1024 limits is scaled to 1024 × 512, and a small JPEG optimizes to a
PNG-typed file. -/
theorem optimizeImageSize_spec_witness :
    optimizeDims 2000 1000 1024 1024 =
      (2000 * min ((1024 : ℚ) / 2000) ((1024 : ℚ) / 1000),
       1000 * min ((1024 : ℚ) / 2000) ((1024 : ℚ) / 1000)) ∧
    (optimizeDims 2000 1000 1024 1024).1 ≤ 1024 ∧
    (⟨"a.png", "image/png", 100⟩ : BFile).type = "image/png" := by
  have hmain := optimizeImageSize_spec.1 2000 1000 1024 1024
    (by norm_num) (by norm_num) (by norm_num) (by norm_num)
  refine ⟨hmain.2.1 (by norm_num), hmain.2.2.1, ?_⟩
  exact optimizeImageSize_spec.2.2.1
    ⟨fun _ => Except.error "x", fun _ => some (10, 10), true, fun _ _ _ => some ⟨100⟩⟩
    ⟨"a.jpg", "image/jpeg", 5000⟩ 1024 1024 ⟨"a.png", "image/png", 100⟩ rfl


theorem genLoop_stop (env : AIEnv) (styles : List String) (url : String)
    (prompts : List String) (i : ℕ) (h : prompts.length ≤ i) :
    genLoop env styles url prompts i = ([], []) := by
  rw [genLoop]
  simp [dif_neg (by omega : ¬ i < prompts.length)]

theorem chunksOfTwo_eq_nil_iff {α : Type} (l : List α) :
    chunksOfTwo l = [] ↔ l = [] := by
  cases l with
  | nil => simp [chunksOfTwo]
  | cons a t => cases t <;> simp [chunksOfTwo]

theorem genLoop_eq_trace (env : AIEnv) (styles : List String) (url : String)
    (prompts : List String) :
    ∀ (k i : ℕ), prompts.length ≤ i + k →
      genLoop env styles url prompts i =
        (batchedTrace env url i (chunksOfTwo (prompts.drop i)),
         collectedImages env styles i (chunksOfTwo (prompts.drop i))) := by
  intro k
  induction k with
  | zero =>
      intro i hk
      have hd : prompts.drop i = [] := List.drop_eq_nil_of_le (by omega)
      rw [genLoop_stop env styles url prompts i (by omega), hd]
      rfl
  | succ k ih =>
      intro i hk
      by_cases hi : i < prompts.length
      · have hd0 : (prompts.drop i).length = prompts.length - i := List.length_drop _ _
        obtain ⟨a, t, hat⟩ : ∃ a t, prompts.drop i = a :: t := by
          cases hdd : prompts.drop i with
          | nil => rw [hdd] at hd0; simp at hd0; omega
          | cons a t => exact ⟨a, t, rfl⟩
        cases t with
        | nil =>
            have hlen : prompts.length = i + 1 := by
              rw [hat] at hd0; simp at hd0; omega
            rw [genLoop, dif_pos hi, hat]
            rw [genLoop_stop env styles url prompts (i + 2) (by omega)]
            rw [if_neg (by omega : ¬ i + 2 < prompts.length)]
            simp only [chunksOfTwo, batchedTrace, collectedImages]
            by_cases hok :
                (List.range (([a] : List String).take 2).length).all
                  (fun j => env.firstAttemptOk (i + j)) = true <;>
              simp_all
        | cons b r =>
            have hlen2 : prompts.length = i + 2 + r.length := by
              rw [hat] at hd0; simp at hd0; omega
            have hdrop2 : prompts.drop (i + 2) = r := by
              have h2 := List.drop_drop 2 i prompts
              rw [hat] at h2
              exact h2.symm
            rw [genLoop, dif_pos hi, hat]
            rw [ih (i + 2) (by omega), hdrop2]
            simp only [chunksOfTwo, batchedTrace, collectedImages]
            by_cases hr : r = []
            · subst hr
              rw [if_neg (by simp at hlen2; omega : ¬ i + 2 < prompts.length)]
              by_cases hok : ∀ x < 2, env.firstAttemptOk (i + x) = true
              · simp_all [chunksOfTwo, batchedTrace, collectedImages]
              · simp_all [chunksOfTwo, batchedTrace, collectedImages]
                split_ifs <;> simp_all
            · have hrl : 0 < r.length := List.length_pos.mpr hr
              rw [if_pos (by omega : i + 2 < prompts.length)]
              have hne : chunksOfTwo r ≠ [] :=
                (not_iff_not.mpr (chunksOfTwo_eq_nil_iff r)).mpr hr
              by_cases hok : ∀ x < 2, env.firstAttemptOk (i + x) = true
              · simp_all
              · simp_all
                split_ifs <;> simp_all
      · have hd : prompts.drop i = [] := List.drop_eq_nil_of_le (by omega)
        rw [genLoop_stop env styles url prompts i (by omega), hd]
        rfl


theorem genLoop_run (env : AIEnv) (styles : List String) (url : String)
    (prompts : List String) :
    genLoop env styles url prompts 0 =
      (batchedTrace env url 0 (chunksOfTwo prompts),
       collectedImages env styles 0 (chunksOfTwo prompts)) := by
  have h := genLoop_eq_trace env styles url prompts prompts.length 0 (by omega)
  simpa using h

theorem batchedTrace_events_shape (env : AIEnv) (url : String) :
    ∀ (cs : List (List String)) (i : ℕ) (e : GenEvent),
      e ∈ batchedTrace env url i cs →
      (∃ cc : List String,
        e = GenEvent.batchRequests (cc.map (mkModifyImageRequest url))) ∨
      (∃ p, e = GenEvent.retryRequest (mkModifyImageRequest url p)) ∨
      e = GenEvent.delayMs 500 := by
  intro cs
  induction cs with
  | nil => intro i e he; simp [batchedTrace] at he
  | cons c rest ih =>
      intro i e he
      simp only [batchedTrace, List.mem_cons, List.mem_append] at he
      rcases he with he | (he | he) | he
      · exact Or.inl ⟨c, he⟩
      · split at he
        · simp at he
        · rcases List.mem_map.mp he with ⟨p, _, hp⟩
          exact Or.inr (Or.inl ⟨p, hp.symm⟩)
      · split at he
        · simp at he
        · simp only [List.mem_singleton] at he
          exact Or.inr (Or.inr he)
      · exact ih _ _ he

theorem batchedTrace_requests (env : AIEnv) (url : String)
    (cs : List (List String)) (i : ℕ) (r : ModifyImageRequest)
    (hr : r ∈ requestsOf (batchedTrace env url i cs)) :
    ∃ p, r = mkModifyImageRequest url p := by
  simp only [requestsOf] at hr
  rcases List.mem_flatten.mp hr with ⟨l, hl, hrl⟩
  rcases List.mem_map.mp hl with ⟨e, he, hel⟩
  subst hel
  rcases batchedTrace_events_shape env url cs i e he with ⟨c, rfl⟩ | ⟨p, rfl⟩ | rfl
  · simp only [requestsOfEvent] at hrl
    rcases List.mem_map.mp hrl with ⟨p, _, hp⟩
    exact ⟨p, hp.symm⟩
  · simp only [requestsOfEvent, List.mem_singleton] at hrl
    exact ⟨p, hrl⟩
  · simp [requestsOfEvent] at hrl


theorem mkModifyImageRequest_shape (url p : String) :
    (mkModifyImageRequest url p).images = [url] ∧
    (mkModifyImageRequest url p).prompt ≠ "" ∧
    (mkModifyImageRequest url p).quality = "high" ∧
    (mkModifyImageRequest url p).n = 1 := by
  refine ⟨rfl, ?_, rfl, rfl⟩
  intro h
  have hlen := congrArg String.length h
  simp only [mkModifyImageRequest, String.length_append] at hlen
  have h0 : headshotPromptIntro.length ≠ 0 := by decide
  have h1 : String.length "" = 0 := rfl
  omega

/-- **C8**: every request the generation loop sends to the external AI
image-modification service — batched or retried — and the request of
`regenerateImage` carry exactly one image URL, a non-empty prefixed prompt,
the quality flag `high`, and count `n = 1`. -/
theorem modifyImage_request_shape (env : AIEnv) (styles : List String)
    (url : String) (prompts : List String) :
    (∀ r ∈ requestsOf (genLoop env styles url prompts 0).1,
      r.images = [url] ∧ r.images.length = 1 ∧ r.prompt ≠ "" ∧
      r.quality = "high" ∧ r.n = 1) ∧
    (∀ img : GenImage,
      (regenerateRequest url img).images = [url] ∧
      (regenerateRequest url img).images.length = 1 ∧
      (regenerateRequest url img).prompt ≠ "" ∧
      (regenerateRequest url img).quality = "high" ∧
      (regenerateRequest url img).n = 1) := by
  constructor
  · intro r hr
    rw [genLoop_run] at hr
    rcases batchedTrace_requests env url _ 0 r hr with ⟨p, rfl⟩
    rcases mkModifyImageRequest_shape url p with ⟨h1, h2, h3, h4⟩
    exact ⟨h1, by rw [h1]; rfl, h2, h3, h4⟩
  · intro img
    rcases mkModifyImageRequest_shape url img.prompt with ⟨h1, h2, h3, h4⟩
    exact ⟨h1, by rw [show (regenerateRequest url img).images = [url] from h1]; rfl,
      h2, h3, h4⟩

/-- Witness for `modifyImage_request_shape`: the single request generated
for a one-prompt run has quality `high` and one image URL. -/
theorem modifyImage_request_shape_witness :
    (mkModifyImageRequest "url" "p1").images = ["url"] ∧
    (mkModifyImageRequest "url" "p1").images.length = 1 ∧
    (mkModifyImageRequest "url" "p1").prompt ≠ "" ∧
    (mkModifyImageRequest "url" "p1").quality = "high" ∧
    (mkModifyImageRequest "url" "p1").n = 1 :=
  (modifyImage_request_shape
    ⟨fun _ => true, fun _ => true, fun _ => "u", fun _ => "v"⟩
    [] "url" ["p1"]).1 (mkModifyImageRequest "url" "p1")
    (by rw [genLoop_run]; decide)

/-- Helper: under `bugEnv`, a two-prompt run's single batch succeeds and
produces both images. -/
theorem genLoopReal_bugEnv_two (styles : List String) (url q1 q2 : String) :
    genLoopReal bugEnv styles url [q1, q2] 0 =
      ([GenEvent.batchRequests
          [mkModifyImageRequest url q1, mkModifyImageRequest url q2]],
       some [GenImage.mk "u" (styleAt styles 0) q1 0,
             GenImage.mk "u" (styleAt styles 1) q2 1]) := by
  rw [genLoopReal, genLoopReal]
  simp [bugEnv, List.enum, List.enumFrom]

/-- Helper: under `bugEnv`, a four-prompt run aborts at the first retry of
the failed second batch — the `ReferenceError` of the retry catch — losing
the two images the first batch produced. -/
theorem genLoopReal_bugEnv_four (styles : List String) (url q1 q2 q3 q4 : String) :
    genLoopReal bugEnv styles url [q1, q2, q3, q4] 0 =
      ([GenEvent.batchRequests
          [mkModifyImageRequest url q1, mkModifyImageRequest url q2],
        GenEvent.delayMs 500,
        GenEvent.batchRequests
          [mkModifyImageRequest url q3, mkModifyImageRequest url q4],
        GenEvent.retryRequest (mkModifyImageRequest url q3)], none) := by
  rw [genLoopReal, genLoopReal]
  simp [retryBatchReal, bugEnv, List.enum, List.enumFrom]
  split_ifs with h
  · exact absurd h (by decide)
  · exact ⟨rfl, rfl⟩

/-- **C4** (code bug, HeadshotGenerator line 153): with six prompts under
`bugEnv` (second batch's `Promise.all` fails, retries fail) the actual loop
aborts at the first failed retry, because the retry `catch` reads the
out-of-scope `const actualIndex` (declared line 133 inside the `try`) and
itself throws a `ReferenceError`: the second prompt of the failed batch is
never retried, the third batch is never issued — 2 batch requests instead
of the claimed `⌈6/2⌉ = 3` — and only one of the two claimed 500 ms delays
occurs, so the trace differs from the claimed `batchedTrace`. -/
theorem generateHeadshots_batching_bug :
    (genLoopReal bugEnv [] "url" ["p1", "p2", "p3", "p4", "p5", "p6"] 0).1 =
      [GenEvent.batchRequests
         [mkModifyImageRequest "url" "p1", mkModifyImageRequest "url" "p2"],
       GenEvent.delayMs 500,
       GenEvent.batchRequests
         [mkModifyImageRequest "url" "p3", mkModifyImageRequest "url" "p4"],
       GenEvent.retryRequest (mkModifyImageRequest "url" "p3")] ∧
    (genLoopReal bugEnv [] "url" ["p1", "p2", "p3", "p4", "p5", "p6"] 0).1 ≠
      batchedTrace bugEnv "url" 0
        (chunksOfTwo ["p1", "p2", "p3", "p4", "p5", "p6"]) ∧
    (chunksOfTwo ["p1", "p2", "p3", "p4", "p5", "p6"]).length = 3 ∧
    (genLoopReal bugEnv [] "url" ["p1", "p2", "p3", "p4", "p5", "p6"] 0).1.count
      (GenEvent.delayMs 500) = 1 := by
  have htrace :
      (genLoopReal bugEnv [] "url" ["p1", "p2", "p3", "p4", "p5", "p6"] 0).1 =
        [GenEvent.batchRequests
           [mkModifyImageRequest "url" "p1", mkModifyImageRequest "url" "p2"],
         GenEvent.delayMs 500,
         GenEvent.batchRequests
           [mkModifyImageRequest "url" "p3", mkModifyImageRequest "url" "p4"],
         GenEvent.retryRequest (mkModifyImageRequest "url" "p3")] := by
    rw [genLoopReal, genLoopReal]
    simp [retryBatchReal, bugEnv]
    split_ifs with h
    · exact absurd h (by decide)
    · rfl
  refine ⟨htrace, ?_, by decide, ?_⟩
  · rw [htrace]; decide
  · rw [htrace]; decide

/-- **C5** (code bug, HeadshotGenerator line 153): at count 4 under
`bugEnv` both first-batch generations succeed, yet the failed retry of the
second batch is not skipped — the `catch` itself throws the
`ReferenceError` (out-of-scope `actualIndex`), aborting to the outer catch
— so the run is reported as failed and commits nothing although two images
were produced; the same environment succeeds at count 2, showing the extra
failing batch destroys the already-produced images. -/
theorem generateHeadshots_outcome_bug :
    bugEnv.firstAttemptOk 0 = true ∧ bugEnv.firstAttemptOk 1 = true ∧
    (generateHeadshots bugEnv
      ⟨Gender.unknown, AgeGroup.adult, Attire.unknown, Setting.unknown, Quality.low⟩
      ⟨100, 100, 1, "image/png", 4096, true⟩ 2 "url" []).succeeded = true ∧
    (generateHeadshots bugEnv
      ⟨Gender.unknown, AgeGroup.adult, Attire.unknown, Setting.unknown, Quality.low⟩
      ⟨100, 100, 1, "image/png", 4096, true⟩ 4 "url" []).succeeded = false ∧
    (generateHeadshots bugEnv
      ⟨Gender.unknown, AgeGroup.adult, Attire.unknown, Setting.unknown, Quality.low⟩
      ⟨100, 100, 1, "image/png", 4096, true⟩ 4 "url" []).committed = [] ∧
    (genLoopReal bugEnv
      (generateBatchPrompts
        ⟨Gender.unknown, AgeGroup.adult, Attire.unknown, Setting.unknown, Quality.low⟩
        ⟨100, 100, 1, "image/png", 4096, true⟩ 4).metadata.suggestedStyles "url"
      (generateBatchPrompts
        ⟨Gender.unknown, AgeGroup.adult, Attire.unknown, Setting.unknown, Quality.low⟩
        ⟨100, 100, 1, "image/png", 4096, true⟩ 4).prompts 0).2 = none := by
  obtain ⟨q1, q2, hq2⟩ : ∃ q1 q2,
      (generateBatchPrompts
        ⟨Gender.unknown, AgeGroup.adult, Attire.unknown, Setting.unknown, Quality.low⟩
        ⟨100, 100, 1, "image/png", 4096, true⟩ 2).prompts = [q1, q2] := ⟨_, _, rfl⟩
  obtain ⟨r1, r2, r3, r4, hq4⟩ : ∃ r1 r2 r3 r4,
      (generateBatchPrompts
        ⟨Gender.unknown, AgeGroup.adult, Attire.unknown, Setting.unknown, Quality.low⟩
        ⟨100, 100, 1, "image/png", 4096, true⟩ 4).prompts = [r1, r2, r3, r4] :=
    ⟨_, _, _, _, rfl⟩
  refine ⟨rfl, rfl, ?_, ?_, ?_, ?_⟩
  · simp only [generateHeadshots]
    rw [hq2, genLoopReal_bugEnv_two]
    rfl
  · simp only [generateHeadshots]
    rw [hq4, genLoopReal_bugEnv_four]
  · simp only [generateHeadshots]
    rw [hq4, genLoopReal_bugEnv_four]
  · rw [hq4, genLoopReal_bugEnv_four]

end Headshot
